import Mathlib

/-!
# RTC / TCD frequency measurement (`RTCInternalFrequencyCalibration/main.c`)

A shallow embedding of the two interrupt handlers `ISR(TCD0_OVF_vect)` and
`ISR(TCD0_TRIG_vect)`, of the set-up routine `TCD_frequency_calibration`, and of
the three globals they share.

* `uint32_t` / `uint16_t` variables are natural numbers, reduced modulo `2^32`
  and `2^16` where the C code stores into them.
* A peripheral register that the program writes is a field holding the value
  last written to it.  For `TCD0_INTFLAGS` this is the acknowledgment value
  written by a handler, not the flags the hardware reports on a read.
* `TCD0_CAPTUREB` is only read, and the hardware supplies its value: it is an
  argument of the trigger handler.
* The symbols `TCD_OVF_bm`, `TCD_TRIGB_bm`, ... come from the device header
  selected by `#include <avr/io.h>` (line 90); the header is taken as a
  parameter, `IoHeader`.
-/

namespace RTCCal

/-- The symbols of the device header (`#include <avr/io.h>`, line 90) that
`main.c` uses.  Each is an 8-bit constant. -/
structure IoHeader where
  CLKCTRL_ENABLE_bm : Nat
  CLKCTRL_RUNSTDBY_bm : Nat
  CLKCTRL_CSUT_64K_gc : Nat
  EVSYS_ASYNCCH3_RTC_OVF_gc : Nat
  EVSYS_ASYNCUSER7_ASYNCCH3_gc : Nat
  TCD_EDGE_bm : Nat
  TCD_ACTION_bm : Nat
  TCD_TRIGEI_bm : Nat
  TCD_TRIGB_bm : Nat
  TCD_OVF_bm : Nat
  TCD_INPUTMODE3_bm : Nat
  RTC_CLKSEL_TOSC32K_gc : Nat
  RTC_RTCEN_bm : Nat
  TCD_ENABLE_bm : Nat
  TCD_CLKSEL_EXTCLK_gc : Nat
  deriving DecidableEq

/-- The values these symbols have in the ATtiny817 device header, the device
`main.c` is written for (lines 43-78).  The header is a file of the toolchain
and not of the repository.  The theorems below hold for every header, except
where they name this one. -/
def iotn817 : IoHeader where
  CLKCTRL_ENABLE_bm := 0x01
  CLKCTRL_RUNSTDBY_bm := 0x02
  CLKCTRL_CSUT_64K_gc := 0x30
  EVSYS_ASYNCCH3_RTC_OVF_gc := 0x08
  EVSYS_ASYNCUSER7_ASYNCCH3_gc := 0x06
  TCD_EDGE_bm := 0x10
  TCD_ACTION_bm := 0x04
  TCD_TRIGEI_bm := 0x01
  TCD_TRIGB_bm := 0x08
  TCD_OVF_bm := 0x01
  TCD_INPUTMODE3_bm := 0x08
  RTC_CLKSEL_TOSC32K_gc := 0x02
  RTC_RTCEN_bm := 0x01
  TCD_ENABLE_bm := 0x01
  TCD_CLKSEL_EXTCLK_gc := 0x40

/-- The three globals of `main.c` (lines 99, 100, 104), the peripheral
registers the program writes, and the global interrupt enable that `sei()`
sets. -/
structure State where
  /-- The global `volatile uint32_t tcd_isr_count` (line 99). -/
  tcd_isr_count : Nat
  /-- The global `volatile uint16_t tcd_capture_value` (line 100). -/
  tcd_capture_value : Nat
  /-- The global `volatile bool first` (line 104). -/
  first : Bool
  CLKCTRL_XOSC32KCTRLA : Nat
  EVSYS_ASYNCCH3 : Nat
  EVSYS_ASYNCUSER7 : Nat
  TCD0_EVCTRLB : Nat
  TCD0_INTCTRL : Nat
  TCD0_CMPBCLR : Nat
  TCD0_INPUTCTRLB : Nat
  /-- The value last written to the flag register `TCD0_INTFLAGS`. -/
  TCD0_INTFLAGS : Nat
  TCD0_CTRLA : Nat
  RTC_CLKSEL : Nat
  RTC_PER : Nat
  RTC_CTRLA : Nat
  /-- The global interrupt enable bit of the status register. -/
  SREG_I : Bool
  deriving DecidableEq

/-- The state in which `main` is entered: the globals hold their initialisers
(lines 99, 100, 104), no register has been written yet and each holds zero, its
value after reset, and interrupts are disabled. -/
def reset : State where
  tcd_isr_count := 0
  tcd_capture_value := 0
  first := true
  CLKCTRL_XOSC32KCTRLA := 0
  EVSYS_ASYNCCH3 := 0
  EVSYS_ASYNCUSER7 := 0
  TCD0_EVCTRLB := 0
  TCD0_INTCTRL := 0
  TCD0_CMPBCLR := 0
  TCD0_INPUTCTRLB := 0
  TCD0_INTFLAGS := 0
  TCD0_CTRLA := 0
  RTC_CLKSEL := 0
  RTC_PER := 0
  RTC_CTRLA := 0
  SREG_I := false

/-- The value of `#define RTC_PERIOD_VALUE 0x7fff;` (line 103). -/
def RTC_PERIOD_VALUE : Nat := 0x7fff

/-- The handler `ISR(TCD0_OVF_vect)` (lines 106-110). -/
def TCD0_OVF_vect (hdr : IoHeader) (s : State) : State :=
  let s := { s with tcd_isr_count := (s.tcd_isr_count + 1) % 2 ^ 32 }
  { s with TCD0_INTFLAGS := hdr.TCD_OVF_bm }

/-- The handler `ISR(TCD0_TRIG_vect)` (lines 112-128); `TCD0_CAPTUREB` is the
value the capture register holds when the handler reads it. -/
def TCD0_TRIG_vect (hdr : IoHeader) (TCD0_CAPTUREB : Nat) (s : State) : State :=
  let s := { s with TCD0_INTFLAGS := hdr.TCD_TRIGB_bm }
  if s.first then
    let s := { s with tcd_capture_value := TCD0_CAPTUREB % 2 ^ 16 }
    let s := { s with RTC_PER := RTC_PERIOD_VALUE }
    let s := { s with TCD0_INPUTCTRLB := 0 }
    let s := { s with tcd_isr_count := 0 }
    { s with first := false }
  else
    let s := { s with tcd_capture_value := TCD0_CAPTUREB % 2 ^ 16 }
    { s with TCD0_CTRLA := 0 }

/-- The function `TCD_frequency_calibration` from its entry up to and including
`sei()` (lines 142-170).  The loop of lines 162-163 only reads `RTC.STATUS`
and writes nothing; this is the state in which the program leaves line 170. -/
def TCD_frequency_calibration_sei (hdr : IoHeader) (s : State) : State :=
  let s := { s with CLKCTRL_XOSC32KCTRLA :=
    hdr.CLKCTRL_ENABLE_bm ||| hdr.CLKCTRL_RUNSTDBY_bm ||| hdr.CLKCTRL_CSUT_64K_gc }
  let s := { s with EVSYS_ASYNCCH3 := hdr.EVSYS_ASYNCCH3_RTC_OVF_gc }
  let s := { s with EVSYS_ASYNCUSER7 := hdr.EVSYS_ASYNCUSER7_ASYNCCH3_gc }
  let s := { s with TCD0_EVCTRLB :=
    hdr.TCD_EDGE_bm ||| hdr.TCD_ACTION_bm ||| hdr.TCD_TRIGEI_bm }
  let s := { s with TCD0_INTCTRL := hdr.TCD_TRIGB_bm ||| hdr.TCD_OVF_bm }
  let s := { s with TCD0_CMPBCLR := 0x0FFF }
  let s := { s with TCD0_INPUTCTRLB := hdr.TCD_INPUTMODE3_bm }
  let s := { s with RTC_CLKSEL := hdr.RTC_CLKSEL_TOSC32K_gc }
  let s := { s with RTC_PER := 0x09 }
  let s := { s with RTC_CTRLA := hdr.RTC_RTCEN_bm }
  { s with SREG_I := true }

/-- The rest of `TCD_frequency_calibration`: the write of line 177.  The loop
of lines 173-174 only reads `CLKCTRL_MCLKSTATUS` and writes nothing. -/
def TCD_frequency_calibration_enable (hdr : IoHeader) (s : State) : State :=
  { s with TCD0_CTRLA := hdr.TCD_ENABLE_bm ||| hdr.TCD_CLKSEL_EXTCLK_gc }

/-- The function `TCD_frequency_calibration` (lines 130-179), as the state in
which it returns. -/
def TCD_frequency_calibration (hdr : IoHeader) (s : State) : State :=
  TCD_frequency_calibration_enable hdr (TCD_frequency_calibration_sei hdr s)

/-- The state in which `main` reaches its idle loop (line 185): the initial
state of the measurement. -/
def start (hdr : IoHeader) : State :=
  TCD_frequency_calibration hdr reset

/-- An interrupt request served by one of the two handlers; a trigger carries
the value `TCD0_CAPTUREB` holds when its handler runs. -/
inductive Irq where
  | ovf : Irq
  | trig (TCD0_CAPTUREB : Nat) : Irq
  deriving DecidableEq

/-- One handler invocation. -/
def step (hdr : IoHeader) (s : State) : Irq → State
  | Irq.ovf => TCD0_OVF_vect hdr s
  | Irq.trig c => TCD0_TRIG_vect hdr c s

/-- The handlers run to completion one after the other, in the order of the
requests. -/
def run (hdr : IoHeader) (irqs : List Irq) (s : State) : State :=
  irqs.foldl (step hdr) s

/-- The requests that the trigger handler serves. -/
def Irq.isTrig : Irq → Bool
  | Irq.ovf => false
  | Irq.trig _ => true

/-- How often the trigger handler runs in a sequence of requests. -/
def trigCount (irqs : List Irq) : Nat :=
  irqs.countP Irq.isTrig

/-- The total number of cycles, as the comment of lines 97-98 gives it:
`tcd_isr_count * 2^12 + tcd_capture_value`. -/
def totalCycles (s : State) : Nat :=
  s.tcd_isr_count * 2 ^ 12 + s.tcd_capture_value

/-- The enable bit of `TCD0_CTRLA` is clear. -/
def fastCounterDisabled (hdr : IoHeader) (s : State) : Prop :=
  s.TCD0_CTRLA &&& hdr.TCD_ENABLE_bm = 0

instance (hdr : IoHeader) (s : State) : Decidable (fastCounterDisabled hdr s) := by
  unfold fastCounterDisabled; infer_instance

/-- The requests up to the start of the second trigger handler: `k` overflows,
the first trigger (capture register reading `c0`), and `n` overflows. -/
def betweenTriggers (k c0 n : Nat) : List Irq :=
  List.replicate k Irq.ovf ++ [Irq.trig c0] ++ List.replicate n Irq.ovf

/-- The requests of one measurement: those of `betweenTriggers`, and the second
trigger (capture register reading `c`). -/
def measurement (k c0 n c : Nat) : List Irq :=
  betweenTriggers k c0 n ++ [Irq.trig c]

/-! ## The handlers, field by field -/

@[simp]
theorem ovf_count (hdr : IoHeader) (s : State) :
    (TCD0_OVF_vect hdr s).tcd_isr_count = (s.tcd_isr_count + 1) % 2 ^ 32 := rfl

@[simp]
theorem ovf_capture (hdr : IoHeader) (s : State) :
    (TCD0_OVF_vect hdr s).tcd_capture_value = s.tcd_capture_value := rfl

@[simp]
theorem ovf_first (hdr : IoHeader) (s : State) :
    (TCD0_OVF_vect hdr s).first = s.first := rfl

@[simp]
theorem ovf_intflags (hdr : IoHeader) (s : State) :
    (TCD0_OVF_vect hdr s).TCD0_INTFLAGS = hdr.TCD_OVF_bm := rfl

@[simp]
theorem ovf_ctrla (hdr : IoHeader) (s : State) :
    (TCD0_OVF_vect hdr s).TCD0_CTRLA = s.TCD0_CTRLA := rfl

@[simp]
theorem ovf_cmpbclr (hdr : IoHeader) (s : State) :
    (TCD0_OVF_vect hdr s).TCD0_CMPBCLR = s.TCD0_CMPBCLR := rfl

@[simp]
theorem trig_intflags (hdr : IoHeader) (c : Nat) (s : State) :
    (TCD0_TRIG_vect hdr c s).TCD0_INTFLAGS = hdr.TCD_TRIGB_bm := by
  unfold TCD0_TRIG_vect; cases h : s.first <;> simp [h]

@[simp]
theorem trig_capture (hdr : IoHeader) (c : Nat) (s : State) :
    (TCD0_TRIG_vect hdr c s).tcd_capture_value = c % 2 ^ 16 := by
  unfold TCD0_TRIG_vect; cases h : s.first <;> simp [h]

@[simp]
theorem trig_first (hdr : IoHeader) (c : Nat) (s : State) :
    (TCD0_TRIG_vect hdr c s).first = false := by
  unfold TCD0_TRIG_vect; cases h : s.first <;> simp [h]

@[simp]
theorem trig_cmpbclr (hdr : IoHeader) (c : Nat) (s : State) :
    (TCD0_TRIG_vect hdr c s).TCD0_CMPBCLR = s.TCD0_CMPBCLR := by
  unfold TCD0_TRIG_vect; cases h : s.first <;> simp [h]

theorem trig_count (hdr : IoHeader) (c : Nat) (s : State) :
    (TCD0_TRIG_vect hdr c s).tcd_isr_count = if s.first then 0 else s.tcd_isr_count := by
  unfold TCD0_TRIG_vect; cases h : s.first <;> simp [h]

theorem trig_ctrla (hdr : IoHeader) (c : Nat) (s : State) :
    (TCD0_TRIG_vect hdr c s).TCD0_CTRLA = if s.first then s.TCD0_CTRLA else 0 := by
  unfold TCD0_TRIG_vect; cases h : s.first <;> simp [h]

theorem trig_rtc_per (hdr : IoHeader) (c : Nat) (s : State) :
    (TCD0_TRIG_vect hdr c s).RTC_PER = if s.first then 0x7fff else s.RTC_PER := by
  unfold TCD0_TRIG_vect; cases h : s.first <;> simp [h, RTC_PERIOD_VALUE]

theorem trig_inputctrlb (hdr : IoHeader) (c : Nat) (s : State) :
    (TCD0_TRIG_vect hdr c s).TCD0_INPUTCTRLB = if s.first then 0 else s.TCD0_INPUTCTRLB := by
  unfold TCD0_TRIG_vect; cases h : s.first <;> simp [h]

/-! ## The state after the set-up -/

@[simp]
theorem start_count (hdr : IoHeader) : (start hdr).tcd_isr_count = 0 := rfl

@[simp]
theorem start_capture (hdr : IoHeader) : (start hdr).tcd_capture_value = 0 := rfl

@[simp]
theorem start_first (hdr : IoHeader) : (start hdr).first = true := rfl

@[simp]
theorem start_cmpbclr (hdr : IoHeader) : (start hdr).TCD0_CMPBCLR = 0x0FFF := rfl

@[simp]
theorem start_rtc_per (hdr : IoHeader) : (start hdr).RTC_PER = 0x09 := rfl

@[simp]
theorem start_ctrla (hdr : IoHeader) :
    (start hdr).TCD0_CTRLA = hdr.TCD_ENABLE_bm ||| hdr.TCD_CLKSEL_EXTCLK_gc := rfl

/-! ## Sequences of handler invocations -/

@[simp]
theorem run_nil (hdr : IoHeader) (s : State) : run hdr [] s = s := rfl

@[simp]
theorem run_cons (hdr : IoHeader) (e : Irq) (irqs : List Irq) (s : State) :
    run hdr (e :: irqs) s = run hdr irqs (step hdr s e) := rfl

theorem run_append (hdr : IoHeader) (a b : List Irq) (s : State) :
    run hdr (a ++ b) s = run hdr b (run hdr a s) := by
  simp [run, List.foldl_append]

@[simp]
theorem trigCount_nil : trigCount [] = 0 := rfl

@[simp]
theorem trigCount_ovf (irqs : List Irq) :
    trigCount (Irq.ovf :: irqs) = trigCount irqs := by
  simp [trigCount, Irq.isTrig]

@[simp]
theorem trigCount_trig (c : Nat) (irqs : List Irq) :
    trigCount (Irq.trig c :: irqs) = trigCount irqs + 1 := by
  simp [trigCount, Irq.isTrig]

/-- A quantity that one overflow invocation preserves is preserved by any
number of them. -/
theorem run_ovf_frame {α : Type} (hdr : IoHeader) (f : State → α)
    (hf : ∀ s, f (TCD0_OVF_vect hdr s) = f s) (n : Nat) (s : State) :
    f (run hdr (List.replicate n Irq.ovf) s) = f s := by
  induction n generalizing s with
  | zero => rfl
  | succ n ih => rw [List.replicate_succ, run_cons, ih]; exact hf s

/-- The counter after `n` overflow invocations, from a 32-bit value. -/
theorem run_ovf_count (hdr : IoHeader) (n : Nat) (s : State)
    (hs : s.tcd_isr_count < 2 ^ 32) :
    (run hdr (List.replicate n Irq.ovf) s).tcd_isr_count
      = (s.tcd_isr_count + n) % 2 ^ 32 := by
  induction n generalizing s with
  | zero => simpa using (Nat.mod_eq_of_lt hs).symm
  | succ n ih =>
    rw [List.replicate_succ, run_cons]
    have h1 : (step hdr s Irq.ovf).tcd_isr_count = (s.tcd_isr_count + 1) % 2 ^ 32 := rfl
    have h2 : (step hdr s Irq.ovf).tcd_isr_count < 2 ^ 32 := by
      rw [h1]; exact Nat.mod_lt _ (by norm_num)
    rw [ih _ h2, h1]
    omega

/-- The flag `first` after any sequence of invocations. -/
theorem run_first (hdr : IoHeader) (irqs : List Irq) (s : State) :
    (run hdr irqs s).first = (s.first && decide (trigCount irqs = 0)) := by
  induction irqs generalizing s with
  | nil => simp
  | cons e irqs ih =>
    cases e with
    | ovf => rw [run_cons, ih]; simp [step]
    | trig c => rw [run_cons, ih]; simp [step]

/-- The register `TCD0_CMPBCLR` is written by no handler. -/
theorem run_cmpbclr (hdr : IoHeader) (irqs : List Irq) (s : State) :
    (run hdr irqs s).TCD0_CMPBCLR = s.TCD0_CMPBCLR := by
  induction irqs generalizing s with
  | nil => rfl
  | cons e irqs ih => cases e <;> rw [run_cons, ih] <;> simp [step]

/-- The register `TCD0_CTRLA` after any sequence of invocations, once the
first trigger has been served. -/
theorem run_ctrla_measuring (hdr : IoHeader) (irqs : List Irq) (s : State)
    (hs : s.first = false) :
    (run hdr irqs s).TCD0_CTRLA = if trigCount irqs = 0 then s.TCD0_CTRLA else 0 := by
  induction irqs generalizing s with
  | nil => simp
  | cons e irqs ih =>
    cases e with
    | ovf =>
      rw [run_cons, ih _ (by simpa [step] using hs)]
      simp [step]
    | trig c =>
      rw [run_cons, ih _ (by simp [step])]
      simp [step, trig_ctrla, hs]

/-- The register `TCD0_CTRLA` after any sequence of invocations, before the
first trigger has been served. -/
theorem run_ctrla_awaiting (hdr : IoHeader) (irqs : List Irq) (s : State)
    (hs : s.first = true) :
    (run hdr irqs s).TCD0_CTRLA = if trigCount irqs < 2 then s.TCD0_CTRLA else 0 := by
  induction irqs generalizing s with
  | nil => simp
  | cons e irqs ih =>
    cases e with
    | ovf =>
      rw [run_cons, ih _ (by simpa [step] using hs)]
      simp [step]
    | trig c =>
      rw [run_cons, run_ctrla_measuring _ _ _ (by simp [step])]
      have h : (trigCount irqs + 1 < 2) = (trigCount irqs = 0) := by
        apply propext; omega
      simp [step, trig_ctrla, hs, h]

/-- A mask that is not zero is not cleared by setting further bits. -/
theorem or_and_self_ne_zero (e c : Nat) (he : e ≠ 0) : (e ||| c) &&& e ≠ 0 := by
  have h : (e ||| c) &&& e = e := by
    apply Nat.eq_of_testBit_eq
    intro i
    simp only [Nat.testBit_and, Nat.testBit_or]
    cases e.testBit i <;> simp
  rw [h]; exact he

/-- The state after `k` overflows and the first trigger. -/
theorem run_first_trigger (hdr : IoHeader) (k c0 : Nat) :
    (run hdr (List.replicate k Irq.ovf ++ [Irq.trig c0]) (start hdr)).first = false ∧
    (run hdr (List.replicate k Irq.ovf ++ [Irq.trig c0]) (start hdr)).tcd_isr_count = 0 := by
  have hf : (run hdr (List.replicate k Irq.ovf) (start hdr)).first = true := by
    rw [run_ovf_frame hdr (fun s => s.first) (fun s => rfl)]; rfl
  rw [run_append, run_cons, run_nil]
  exact ⟨by simp [step], by simp [step, trig_count, hf]⟩

/-- The counter in the state in which the second trigger handler starts. -/
theorem count_between_triggers (hdr : IoHeader) (k c0 n : Nat) :
    (run hdr (betweenTriggers k c0 n) (start hdr)).tcd_isr_count = n % 2 ^ 32 := by
  obtain ⟨_, h0⟩ := run_first_trigger hdr k c0
  unfold betweenTriggers
  rw [run_append, run_ovf_count hdr n _ (by rw [h0]; norm_num), h0, Nat.zero_add]

/-- The flag `first` in the state in which the second trigger handler starts. -/
theorem first_between_triggers (hdr : IoHeader) (k c0 n : Nat) :
    (run hdr (betweenTriggers k c0 n) (start hdr)).first = false := by
  obtain ⟨h0, _⟩ := run_first_trigger hdr k c0
  unfold betweenTriggers
  rw [run_append, run_ovf_frame hdr (fun s => s.first) (fun s => rfl), h0]

/-! ## The claims -/

/-- C1: from the initial state (`tcd_isr_count = 0`, `tcd_capture_value = 0`,
`first = true`), `k` overflows, a trigger, `n < 2^32` overflows and a trigger
with the capture register reading a 16-bit `c` end with `tcd_isr_count = n` and
`tcd_capture_value = c`, so that the total is
`tcd_isr_count * 4096 + tcd_capture_value = n * 4096 + c`, where
`4096 = 2^12 = TCD0_CMPBCLR + 1` for the compare-clear value `0x0FFF`. -/
theorem measurement_total_cycles (hdr : IoHeader) (k c0 n c : Nat)
    (hn : n < 2 ^ 32) (hc : c < 2 ^ 16) :
    ((start hdr).tcd_isr_count = 0 ∧ (start hdr).tcd_capture_value = 0
      ∧ (start hdr).first = true) ∧
    (run hdr (measurement k c0 n c) (start hdr)).tcd_isr_count = n ∧
    (run hdr (measurement k c0 n c) (start hdr)).tcd_capture_value = c ∧
    totalCycles (run hdr (measurement k c0 n c) (start hdr))
      = (run hdr (measurement k c0 n c) (start hdr)).tcd_isr_count * 4096
        + (run hdr (measurement k c0 n c) (start hdr)).tcd_capture_value ∧
    totalCycles (run hdr (measurement k c0 n c) (start hdr)) = n * 4096 + c ∧
    (4096 : Nat) = 2 ^ 12 ∧
    (run hdr (measurement k c0 n c) (start hdr)).TCD0_CMPBCLR = 0x0FFF ∧
    (run hdr (measurement k c0 n c) (start hdr)).TCD0_CMPBCLR + 1 = 4096 := by
  have hcnt : (run hdr (measurement k c0 n c) (start hdr)).tcd_isr_count = n := by
    unfold measurement
    rw [run_append, run_cons, run_nil]
    simp only [step]
    rw [trig_count, first_between_triggers, count_between_triggers]
    simpa using Nat.mod_eq_of_lt hn
  have hcap : (run hdr (measurement k c0 n c) (start hdr)).tcd_capture_value = c := by
    unfold measurement
    rw [run_append, run_cons, run_nil]
    simp only [step]
    rw [trig_capture]
    exact Nat.mod_eq_of_lt hc
  have hclr : (run hdr (measurement k c0 n c) (start hdr)).TCD0_CMPBCLR = 0x0FFF := by
    rw [run_cmpbclr]; rfl
  refine ⟨⟨rfl, rfl, rfl⟩, hcnt, hcap, rfl, ?_, by norm_num, hclr, by rw [hclr]⟩
  unfold totalCycles
  rw [hcnt, hcap]
  norm_num

/-- C1, scenario A: `k = 3`, `n = 5`, `c = 100` gives 20580 cycles. -/
theorem measurement_total_cycles_witness :
    ((5 : Nat) < 2 ^ 32 ∧ (100 : Nat) < 2 ^ 16) ∧
    (run iotn817 (measurement 3 7 5 100) (start iotn817)).tcd_isr_count = 5 ∧
    (run iotn817 (measurement 3 7 5 100) (start iotn817)).tcd_capture_value = 100 ∧
    totalCycles (run iotn817 (measurement 3 7 5 100) (start iotn817)) = 20580 :=
  ⟨⟨by decide, by decide⟩,
   (measurement_total_cycles iotn817 3 7 5 100 (by decide) (by decide)).2.1,
   (measurement_total_cycles iotn817 3 7 5 100 (by decide) (by decide)).2.2.1,
   (measurement_total_cycles iotn817 3 7 5 100 (by decide) (by decide)).2.2.2.2.1⟩

/-- C2 (P1, discard correctness): from the initial state, `k` overflows followed
by exactly one trigger leave `first = false` and `tcd_isr_count = 0`, whatever
`k` and the capture register value are. -/
theorem discard_correct (hdr : IoHeader) (k c : Nat) :
    (run hdr (List.replicate k Irq.ovf ++ [Irq.trig c]) (start hdr)).first = false ∧
    (run hdr (List.replicate k Irq.ovf ++ [Irq.trig c]) (start hdr)).tcd_isr_count = 0 :=
  run_first_trigger hdr k c

/-- C3 as stated fails: with `n = 2^32` overflows between the two triggers the
32-bit counter is 0, not `n`, when the second trigger handler starts. -/
theorem overflow_accounting_wraps :
    (run iotn817 (betweenTriggers 0 0 (2 ^ 32)) (start iotn817)).tcd_isr_count = 0 ∧
    (run iotn817 (betweenTriggers 0 0 (2 ^ 32)) (start iotn817)).tcd_isr_count ≠ 2 ^ 32 := by
  have h := count_between_triggers iotn817 0 0 (2 ^ 32)
  rw [Nat.mod_self] at h
  exact ⟨h, by rw [h]; norm_num⟩

/-- C3 (P2), amended: with `n` overflows strictly between the first and the
second trigger, `tcd_isr_count` is `n` modulo `2^32` in the state in which the
second trigger handler starts. -/
theorem overflow_accounting_mod (hdr : IoHeader) (k c0 n : Nat) :
    (run hdr (betweenTriggers k c0 n) (start hdr)).tcd_isr_count = n % 2 ^ 32 :=
  count_between_triggers hdr k c0 n

/-- C4 as stated fails: in the state the program is in right after `sei()`
(line 170), with interrupts enabled and no handler run yet, the enable bit of
`TCD0_CTRLA` is clear (line 177 has not been reached) although the trigger
handler has not run twice. -/
theorem gate_fails_before_enable :
    (TCD_frequency_calibration_sei iotn817 reset).SREG_I = true ∧
    fastCounterDisabled iotn817 (run iotn817 [] (TCD_frequency_calibration_sei iotn817 reset)) ∧
    ¬ (2 ≤ trigCount []) ∧
    ¬ (fastCounterDisabled iotn817 (run iotn817 [] (TCD_frequency_calibration_sei iotn817 reset))
        ↔ 2 ≤ trigCount []) := by
  decide

/-- C4, amended: in every state reached from the return of
`TCD_frequency_calibration` (line 177 has set the enable bit, a mask that is
not zero) through any sequence of overflow and trigger handler invocations, the
enable bit of `TCD0_CTRLA` is clear if and only if the trigger handler has run
at least twice. -/
theorem gate_after_enable (hdr : IoHeader) (irqs : List Irq)
    (hen : hdr.TCD_ENABLE_bm ≠ 0) :
    fastCounterDisabled hdr (run hdr irqs (start hdr)) ↔ 2 ≤ trigCount irqs := by
  unfold fastCounterDisabled
  rw [run_ctrla_awaiting hdr irqs (start hdr) rfl, start_ctrla]
  by_cases h : trigCount irqs < 2
  · rw [if_pos h]
    constructor
    · intro h0; exact absurd h0 (or_and_self_ne_zero _ _ hen)
    · intro h2; omega
  · rw [if_neg h]
    constructor
    · intro _; omega
    · intro _; exact Nat.zero_and _

/-- C4, amended, on the ATtiny817 header: after a trigger, an overflow and a
second trigger the counter is disabled, and the trigger handler has run twice. -/
theorem gate_after_enable_witness :
    iotn817.TCD_ENABLE_bm ≠ 0 ∧
    (fastCounterDisabled iotn817
        (run iotn817 [Irq.trig 7, Irq.ovf, Irq.trig 100] (start iotn817))
      ↔ 2 ≤ trigCount [Irq.trig 7, Irq.ovf, Irq.trig 100]) :=
  ⟨by decide, gate_after_enable iotn817 [Irq.trig 7, Irq.ovf, Irq.trig 100] (by decide)⟩

/-- C5 as stated fails: in the state reached by `2^32 - 1` overflow handler
invocations `tcd_isr_count` is `2^32 - 1`, and one more invocation leaves it
at 0 instead of increasing it by one. -/
theorem overflow_increment_wraps :
    (run iotn817 (List.replicate 4294967295 Irq.ovf) (start iotn817)).tcd_isr_count
      = 4294967295 ∧
    (TCD0_OVF_vect iotn817
      (run iotn817 (List.replicate 4294967295 Irq.ovf) (start iotn817))).tcd_isr_count = 0 ∧
    (TCD0_OVF_vect iotn817
      (run iotn817 (List.replicate 4294967295 Irq.ovf) (start iotn817))).tcd_isr_count
      ≠ (run iotn817 (List.replicate 4294967295 Irq.ovf) (start iotn817)).tcd_isr_count + 1 := by
  have h : (run iotn817 (List.replicate 4294967295 Irq.ovf) (start iotn817)).tcd_isr_count
      = 4294967295 := by
    rw [run_ovf_count iotn817 4294967295 (start iotn817) (by rw [start_count]; norm_num),
      start_count]
    norm_num
  refine ⟨h, ?_, ?_⟩
  · rw [ovf_count, h]; norm_num
  · rw [ovf_count, h]; norm_num

/-- C5, amended: for every state, one invocation of the overflow handler sets
`tcd_isr_count` to `tcd_isr_count + 1` modulo `2^32`, and writes `TCD_OVF_bm` to
`TCD0_INTFLAGS` whatever the state is. -/
theorem overflow_handler_contract (hdr : IoHeader) (s : State) :
    (TCD0_OVF_vect hdr s).tcd_isr_count = (s.tcd_isr_count + 1) % 2 ^ 32 ∧
    (TCD0_OVF_vect hdr s).TCD0_INTFLAGS = hdr.TCD_OVF_bm :=
  ⟨rfl, rfl⟩

/-- C6: in a state with `first = true`, one invocation of the trigger handler
with the capture register reading a 16-bit `c` writes `TCD_TRIGB_bm` to
`TCD0_INTFLAGS`, stores `c` in `tcd_capture_value`, sets `RTC_PER` to `0x7fff`
(the set-up had written `0x09`), sets `TCD0_INPUTCTRLB` to 0, `tcd_isr_count` to
0 and `first` to false, and leaves `TCD0_CTRLA` as it was. -/
theorem trigger_alignment_branch (hdr : IoHeader) (s : State) (c : Nat)
    (hfirst : s.first = true) (hc : c < 2 ^ 16) :
    (TCD0_TRIG_vect hdr c s).TCD0_INTFLAGS = hdr.TCD_TRIGB_bm ∧
    (TCD0_TRIG_vect hdr c s).tcd_capture_value = c ∧
    (TCD0_TRIG_vect hdr c s).RTC_PER = 0x7fff ∧
    (start hdr).RTC_PER = 0x09 ∧
    (TCD0_TRIG_vect hdr c s).TCD0_INPUTCTRLB = 0 ∧
    (TCD0_TRIG_vect hdr c s).tcd_isr_count = 0 ∧
    (TCD0_TRIG_vect hdr c s).first = false ∧
    (TCD0_TRIG_vect hdr c s).TCD0_CTRLA = s.TCD0_CTRLA := by
  refine ⟨trig_intflags hdr c s, ?_, ?_, rfl, ?_, ?_, trig_first hdr c s, ?_⟩
  · rw [trig_capture]; exact Nat.mod_eq_of_lt hc
  · rw [trig_rtc_per, if_pos hfirst]
  · rw [trig_inputctrlb, if_pos hfirst]
  · rw [trig_count, if_pos hfirst]
  · rw [trig_ctrla, if_pos hfirst]

/-- C6 on the first trigger after the set-up, capture register reading 100. -/
theorem trigger_alignment_branch_witness :
    ((start iotn817).first = true ∧ (100 : Nat) < 2 ^ 16) ∧
    (TCD0_TRIG_vect iotn817 100 (start iotn817)).TCD0_INTFLAGS = iotn817.TCD_TRIGB_bm ∧
    (TCD0_TRIG_vect iotn817 100 (start iotn817)).tcd_capture_value = 100 ∧
    (TCD0_TRIG_vect iotn817 100 (start iotn817)).RTC_PER = 0x7fff ∧
    (start iotn817).RTC_PER = 0x09 ∧
    (TCD0_TRIG_vect iotn817 100 (start iotn817)).TCD0_INPUTCTRLB = 0 ∧
    (TCD0_TRIG_vect iotn817 100 (start iotn817)).tcd_isr_count = 0 ∧
    (TCD0_TRIG_vect iotn817 100 (start iotn817)).first = false ∧
    (TCD0_TRIG_vect iotn817 100 (start iotn817)).TCD0_CTRLA = (start iotn817).TCD0_CTRLA :=
  ⟨⟨rfl, by decide⟩, trigger_alignment_branch iotn817 (start iotn817) 100 rfl (by decide)⟩

/-- C7: in a state with `first = false`, one invocation of the trigger handler
with the capture register reading a 16-bit `c` stores `c` in
`tcd_capture_value` and sets `TCD0_CTRLA` to 0, so that the enable bit is clear,
and leaves `first` (false), `tcd_isr_count`, `RTC_PER` and `TCD0_INPUTCTRLB` as
they were. -/
theorem trigger_measuring_branch (hdr : IoHeader) (s : State) (c : Nat)
    (hfirst : s.first = false) (hc : c < 2 ^ 16) :
    (TCD0_TRIG_vect hdr c s).tcd_capture_value = c ∧
    (TCD0_TRIG_vect hdr c s).TCD0_CTRLA = 0 ∧
    fastCounterDisabled hdr (TCD0_TRIG_vect hdr c s) ∧
    (TCD0_TRIG_vect hdr c s).first = false ∧
    (TCD0_TRIG_vect hdr c s).tcd_isr_count = s.tcd_isr_count ∧
    (TCD0_TRIG_vect hdr c s).RTC_PER = s.RTC_PER ∧
    (TCD0_TRIG_vect hdr c s).TCD0_INPUTCTRLB = s.TCD0_INPUTCTRLB := by
  have hctrla : (TCD0_TRIG_vect hdr c s).TCD0_CTRLA = 0 := by
    rw [trig_ctrla, hfirst]; rfl
  refine ⟨?_, hctrla, ?_, trig_first hdr c s, ?_, ?_, ?_⟩
  · rw [trig_capture]; exact Nat.mod_eq_of_lt hc
  · unfold fastCounterDisabled; rw [hctrla]; exact Nat.zero_and _
  · rw [trig_count, hfirst]; rfl
  · rw [trig_rtc_per, hfirst]; rfl
  · rw [trig_inputctrlb, hfirst]; rfl

/-- C7 on the second trigger, after five overflows, capture register reading
100. -/
theorem trigger_measuring_branch_witness :
    ((run iotn817 (betweenTriggers 3 7 5) (start iotn817)).first = false
      ∧ (100 : Nat) < 2 ^ 16) ∧
    (TCD0_TRIG_vect iotn817 100
      (run iotn817 (betweenTriggers 3 7 5) (start iotn817))).tcd_capture_value = 100 ∧
    (TCD0_TRIG_vect iotn817 100
      (run iotn817 (betweenTriggers 3 7 5) (start iotn817))).TCD0_CTRLA = 0 ∧
    (TCD0_TRIG_vect iotn817 100
      (run iotn817 (betweenTriggers 3 7 5) (start iotn817))).tcd_isr_count = 5 :=
  ⟨⟨by decide, by decide⟩,
   (trigger_measuring_branch iotn817 (run iotn817 (betweenTriggers 3 7 5) (start iotn817)) 100
      (by decide) (by decide)).1,
   (trigger_measuring_branch iotn817 (run iotn817 (betweenTriggers 3 7 5) (start iotn817)) 100
      (by decide) (by decide)).2.1,
   (trigger_measuring_branch iotn817 (run iotn817 (betweenTriggers 3 7 5) (start iotn817)) 100
      (by decide) (by decide)).2.2.2.2.1⟩

/-- C8 (one-shot handshake): after any sequence of handler invocations from the
initial state, `first` is true exactly when no trigger handler has run in the
sequence; and from any state, a further sequence of invocations leaves `first`
true only if it was true and the sequence has no trigger, so that a false
`first` is never set back to true. -/
theorem first_one_shot (hdr : IoHeader) (irqs more : List Irq) :
    (start hdr).first = true ∧
    ((run hdr irqs (start hdr)).first = true ↔ trigCount irqs = 0) ∧
    (run hdr (irqs ++ more) (start hdr)).first
      = ((run hdr irqs (start hdr)).first && decide (trigCount more = 0)) := by
  refine ⟨rfl, ?_, ?_⟩
  · rw [run_first]; simp
  · rw [run_append, run_first hdr more]

/-- C9 as stated fails: after three overflows from the initial state
`tcd_isr_count` is 3, and the trigger handler, in its branch `first = true`,
sets it to 0: the trigger handler writes a field the overflow handler writes. -/
theorem trigger_writes_count :
    (run iotn817 [Irq.ovf, Irq.ovf, Irq.ovf] (start iotn817)).tcd_isr_count = 3 ∧
    (TCD0_TRIG_vect iotn817 100
      (run iotn817 [Irq.ovf, Irq.ovf, Irq.ovf] (start iotn817))).tcd_isr_count = 0 ∧
    (TCD0_TRIG_vect iotn817 100
      (run iotn817 [Irq.ovf, Irq.ovf, Irq.ovf] (start iotn817))).tcd_isr_count
      ≠ (run iotn817 [Irq.ovf, Irq.ovf, Irq.ovf] (start iotn817)).tcd_isr_count := by
  decide

/-- C9, amended: for every state, the overflow handler leaves
`tcd_capture_value` and `first` unchanged; the trigger handler leaves
`tcd_isr_count` unchanged when `first` is false and sets it to 0 when `first`
is true, so `tcd_isr_count` is the one field that both handlers write. -/
theorem field_writers (hdr : IoHeader) (s : State) (c : Nat) :
    (TCD0_OVF_vect hdr s).tcd_capture_value = s.tcd_capture_value ∧
    (TCD0_OVF_vect hdr s).first = s.first ∧
    (TCD0_TRIG_vect hdr c s).tcd_isr_count = (if s.first then 0 else s.tcd_isr_count) :=
  ⟨rfl, rfl, trig_count hdr c s⟩

/-- C10 (P4, no cross-talk): after any sequence of handler invocations, from any
state, the value an overflow handler invocation writes to `TCD0_INTFLAGS` is
`TCD_OVF_bm` and the value a trigger handler invocation writes to it is
`TCD_TRIGB_bm`; in the ATtiny817 header the two masks share no set bit. -/
theorem no_cross_talk (hdr : IoHeader) (irqs : List Irq) (s : State) (c : Nat) :
    (run hdr (irqs ++ [Irq.ovf]) s).TCD0_INTFLAGS = hdr.TCD_OVF_bm ∧
    (run hdr (irqs ++ [Irq.trig c]) s).TCD0_INTFLAGS = hdr.TCD_TRIGB_bm ∧
    iotn817.TCD_OVF_bm &&& iotn817.TCD_TRIGB_bm = 0 := by
  refine ⟨?_, ?_, by decide⟩
  · rw [run_append, run_cons, run_nil]; rfl
  · rw [run_append, run_cons, run_nil]; exact trig_intflags hdr c _

end RTCCal
